import Mathlib

/-
Verification of the redlog structured-logging library (Python).

Shallow embedding of the source modules:
  redlog/core.py       : Level, LogEntry, Logger, the log pipeline
  redlog/fields.py     : Field, FieldSet
  redlog/themes.py     : Color codes, Theme, DEFAULT and PLAIN presets
  redlog/formatters.py : DefaultFormatter, TimestampedFormatter, JSONFormatter
  redlog/utils.py      : stringify, should_use_color, colorize, fmt

External collaborators are modelled as parameters rather than re-implemented:
  - should_use_color() inspects environment variables and the TTY; every
    function that calls colorize takes its boolean result as the
    parameter use_color.
  - datetime timestamps are opaque: a Timestamp carries the two rendered
    forms the formatters consume (strftime "%H:%M:%S" and isoformat).
  - the formatter/sink objects a Logger dispatches to are modelled as
    functions that either succeed or raise (Except), mirroring the
    try/except structure of Logger._log.
  - the Python % string-interpolation operator is modelled by its result,
    an Except value: ok on success, error for the TypeError/ValueError it
    raises on a wrong argument count or type.
-/

namespace Redlog

/-- Log levels from core.py Level(IntEnum); lower ordinal = higher priority. -/
inductive Level where
  | CRITICAL
  | ERROR
  | WARN
  | INFO
  | VERBOSE
  | TRACE
  | DEBUG
  | PEDANTIC
  | ANNOYING
deriving DecidableEq

/-- Numeric value of each level, exactly the IntEnum values in core.py. -/
def Level.ord : Level → Nat
  | .CRITICAL => 0
  | .ERROR => 1
  | .WARN => 2
  | .INFO => 3
  | .VERBOSE => 4
  | .TRACE => 5
  | .DEBUG => 6
  | .PEDANTIC => 7
  | .ANNOYING => 8

/-- Logger._should_log: `level <= _config.min_level`, IntEnum comparison by value. -/
def Level.shouldLog (level minLevel : Level) : Bool :=
  level.ord ≤ minLevel.ord

/-- All nine levels in enum order (iteration order of `for level in Level`). -/
def Level.all : List Level :=
  [.CRITICAL, .ERROR, .WARN, .INFO, .VERBOSE, .TRACE, .DEBUG, .PEDANTIC, .ANNOYING]

/-- level_name from core.py. -/
def level_name : Level → String
  | .CRITICAL => "critical"
  | .ERROR => "error"
  | .WARN => "warn"
  | .INFO => "info"
  | .VERBOSE => "verbose"
  | .TRACE => "trace"
  | .DEBUG => "debug"
  | .PEDANTIC => "pedantic"
  | .ANNOYING => "annoying"

/-- level_short_name from core.py. -/
def level_short_name : Level → String
  | .CRITICAL => "crt"
  | .ERROR => "err"
  | .WARN => "wrn"
  | .INFO => "inf"
  | .VERBOSE => "vrb"
  | .TRACE => "trc"
  | .DEBUG => "dbg"
  | .PEDANTIC => "ped"
  | .ANNOYING => "ayg"

/-- Python values fed to stringify in utils.py, restricted to the cases the
claims exercise: None, str, int, bool, and arbitrary objects whose str()
either yields a string or raises. -/
inductive PyValue where
  | none
  | str (s : String)
  | int (n : Int)
  | bool (b : Bool)
  | obj (strResult : Option String)
deriving DecidableEq

/-- stringify from utils.py: None to "null", strings unchanged, numbers and
booleans via Python str(), other objects via str() with the
"[unprintable]" fallback when str() raises. -/
def stringify : PyValue → String
  | .none => "null"
  | .str s => s
  | .int n => toString n
  | .bool b => if b then "True" else "False"
  | .obj (some s) => s
  | .obj Option.none => "[unprintable]"

/-- Field from fields.py: key and value stored as strings. -/
structure Field where
  key : String
  value : String
deriving DecidableEq

/-- Field.__init__ stringifies the value eagerly. -/
def Field.make (key : String) (value : PyValue) : Field :=
  ⟨key, stringify value⟩

/-- FieldSet from fields.py: an ordered list of fields. -/
structure FieldSet where
  fields : List Field
deriving DecidableEq

/-- FieldSet.with_field: `FieldSet(self._fields + [field])`. -/
def FieldSet.with_field (fs : FieldSet) (f : Field) : FieldSet :=
  ⟨fs.fields ++ [f]⟩

/-- FieldSet.with_fields: `FieldSet(self._fields + other._fields)`. -/
def FieldSet.with_fields (fs other : FieldSet) : FieldSet :=
  ⟨fs.fields ++ other.fields⟩

/-- FieldSet.empty: `len(self._fields) == 0`. -/
def FieldSet.empty (fs : FieldSet) : Bool :=
  fs.fields.length = 0

/-- FieldSet.__len__. -/
def FieldSet.len (fs : FieldSet) : Nat :=
  fs.fields.length

/- ANSI color codes from themes.py Color(IntEnum); NONE is 0. -/
namespace Color

def NONE : Nat := 0
def RED : Nat := 31
def GREEN : Nat := 32
def YELLOW : Nat := 33
def BLUE : Nat := 34
def MAGENTA : Nat := 35
def CYAN : Nat := 36
def WHITE : Nat := 37
def BRIGHT_BLACK : Nat := 90
def BRIGHT_RED : Nat := 91
def BRIGHT_GREEN : Nat := 92
def BRIGHT_YELLOW : Nat := 93
def BRIGHT_BLUE : Nat := 94
def BRIGHT_MAGENTA : Nat := 95
def BRIGHT_CYAN : Nat := 96
def BRIGHT_WHITE : Nat := 97

end Color

/-- Theme from themes.py with its default field values; widths are Python
ints, hence Int here. -/
structure Theme where
  critical_color : Nat := Color.BRIGHT_MAGENTA
  error_color : Nat := Color.RED
  warn_color : Nat := Color.YELLOW
  info_color : Nat := Color.GREEN
  verbose_color : Nat := Color.BLUE
  trace_color : Nat := Color.WHITE
  debug_color : Nat := Color.BRIGHT_BLACK
  pedantic_color : Nat := Color.BRIGHT_BLACK
  annoying_color : Nat := Color.BRIGHT_BLACK
  critical_bg_color : Nat := Color.NONE
  error_bg_color : Nat := Color.NONE
  warn_bg_color : Nat := Color.NONE
  info_bg_color : Nat := Color.NONE
  verbose_bg_color : Nat := Color.NONE
  trace_bg_color : Nat := Color.NONE
  debug_bg_color : Nat := Color.NONE
  pedantic_bg_color : Nat := Color.NONE
  annoying_bg_color : Nat := Color.NONE
  source_color : Nat := Color.CYAN
  source_bg_color : Nat := Color.NONE
  message_color : Nat := Color.WHITE
  field_key_color : Nat := Color.BRIGHT_CYAN
  field_value_color : Nat := Color.WHITE
  source_width : Int := 12
  message_fixed_width : Int := 44
  pad_level_text : Bool := true
deriving DecidableEq

namespace themes

/-- themes.DEFAULT: a Theme with all default values. -/
def DEFAULT : Theme := {}

/-- themes.PLAIN: every color field set to NONE, layout defaults kept. -/
def PLAIN : Theme :=
  { critical_color := Color.NONE
    error_color := Color.NONE
    warn_color := Color.NONE
    info_color := Color.NONE
    verbose_color := Color.NONE
    trace_color := Color.NONE
    debug_color := Color.NONE
    pedantic_color := Color.NONE
    annoying_color := Color.NONE
    critical_bg_color := Color.NONE
    error_bg_color := Color.NONE
    warn_bg_color := Color.NONE
    info_bg_color := Color.NONE
    verbose_bg_color := Color.NONE
    trace_bg_color := Color.NONE
    debug_bg_color := Color.NONE
    pedantic_bg_color := Color.NONE
    annoying_bg_color := Color.NONE
    source_color := Color.NONE
    source_bg_color := Color.NONE
    message_color := Color.NONE
    field_key_color := Color.NONE
    field_value_color := Color.NONE }

end themes

/-- Python `" " * n` used by the formatters. -/
def spaces : Nat → String
  | 0 => ""
  | n + 1 => " " ++ spaces n

/-- colorize from utils.py. The boolean result of should_use_color() (an
environment/TTY query, external to the library core) is passed in as
use_color; the rest mirrors the source line by line. -/
def colorize (use_color : Bool) (text : String) (fg_color : Nat) (bg_color : Nat := 0) : String :=
  if ¬ use_color ∨ (fg_color = 0 ∧ bg_color = 0) then text
  else
    let codes : List String :=
      (if fg_color ≠ 0 then [toString fg_color] else [])
        ++ (if bg_color ≠ 0 then [toString bg_color] else [])
    if codes = [] then text
    else
      let escape_seq := "\x1b[" ++ String.intercalate ";" codes ++ "m"
      escape_seq ++ text ++ "\x1b[0m"

/-- fmt from utils.py: `format_str % args` guarded by try/except. The
interpolation itself is the host platform's % operator, modelled by its
outcome: ok with the formatted string, or error for a raised
TypeError/ValueError. -/
def fmt (interp : Except Unit String) : String :=
  match interp with
  | .ok s => s
  | .error _ => "[format_error]"

/-- Opaque wall-clock timestamp (datetime in the source). The formatters
consume only the two renderings kept here: strftime "%H:%M:%S" and
isoformat. -/
structure Timestamp where
  hms : String
  iso : String
deriving DecidableEq

/-- LogEntry from core.py. -/
structure LogEntry where
  level : Level
  message : String
  source : String
  fields : FieldSet
  timestamp : Timestamp

/-- Result type of a formatter object: the string it renders, or the
exception Formatter.format raises. -/
def Fmtr : Type := LogEntry → Except Unit String

/-- Result type of a sink object: unit, or the exception Sink.write raises. -/
def SinkFn : Type := String → Except Unit Unit

/-- Logger from core.py: immutable name, optional formatter/sink overrides,
optional bound FieldSet (None at construction). -/
structure Logger where
  name : String
  formatterOpt : Option Fmtr
  sinkOpt : Option SinkFn
  fieldsOpt : Option FieldSet

/-- get_logger from core.py: `Logger(name)`. -/
def get_logger (name : String) : Logger :=
  ⟨name, Option.none, Option.none, Option.none⟩

/-- Logger.fields property: the bound FieldSet, or a fresh empty one when
the stored attribute is None. -/
def Logger.fields (lg : Logger) : FieldSet :=
  lg.fieldsOpt.getD ⟨[]⟩

/-- Logger.with_name: dot-join when the current name is non-empty (Python
string truthiness), else just the new segment. -/
def Logger.with_name (lg : Logger) (name : String) : Logger :=
  let new_name := if lg.name ≠ "" then lg.name ++ "." ++ name else name
  ⟨new_name, lg.formatterOpt, lg.sinkOpt, lg.fieldsOpt⟩

/-- Logger.with_field: extend the effective FieldSet with Field(key, value). -/
def Logger.with_field (lg : Logger) (key : String) (value : PyValue) : Logger :=
  ⟨lg.name, lg.formatterOpt, lg.sinkOpt, some (lg.fields.with_field (Field.make key value))⟩

/-- Logger.with_fields: fold with_field over the given fields. -/
def Logger.with_fields (lg : Logger) (fields : List Field) : Logger :=
  ⟨lg.name, lg.formatterOpt, lg.sinkOpt, some (fields.foldl FieldSet.with_field lg.fields)⟩

/-- The LogEntry built inside Logger._log: bound fields extended with the
per-call fields in order, the logger's name as source. -/
def Logger.builtEntry (lg : Logger) (level : Level) (message : String)
    (callFields : List Field) (ts : Timestamp) : LogEntry :=
  ⟨level, message, lg.name, callFields.foldl FieldSet.with_field lg.fields, ts⟩

/-- The single fallback diagnostic line Logger._log prints to stderr. -/
def fallbackLine (message : String) : String :=
  "[redlog-error] Failed to log: " ++ message

/-- Observable outcome of one log call. -/
inductive LogOutcome where
  | filtered
  | emitted (line : String)
  | fallback (stderrLine : String)
deriving DecidableEq

/-- Logger._log from core.py. M is the global Config min_level read by
_should_log; defF and defS are the DefaultFormatter()/ConsoleSink() the
formatter/sink properties build when no override is set. The try/except
around merge-format-write becomes the two matches: any raised exception
yields the single stderr fallback line. -/
def Logger.logCore (lg : Logger) (M : Level) (defF : Fmtr) (defS : SinkFn)
    (level : Level) (message : String) (callFields : List Field) (ts : Timestamp) : LogOutcome :=
  if ¬ Level.shouldLog level M then .filtered
  else
    match lg.formatterOpt.getD defF (lg.builtEntry level message callFields ts) with
    | .error _ => .fallback (fallbackLine message)
    | .ok formatted =>
      match lg.sinkOpt.getD defS formatted with
      | .error _ => .fallback (fallbackLine message)
      | .ok _ => .emitted formatted

/-- Logger.critical delegates to _log at CRITICAL. -/
def Logger.critical (lg : Logger) (M : Level) (defF : Fmtr) (defS : SinkFn)
    (message : String) (fields : List Field) (ts : Timestamp) : LogOutcome :=
  lg.logCore M defF defS .CRITICAL message fields ts

/-- Logger.error delegates to _log at ERROR. -/
def Logger.error (lg : Logger) (M : Level) (defF : Fmtr) (defS : SinkFn)
    (message : String) (fields : List Field) (ts : Timestamp) : LogOutcome :=
  lg.logCore M defF defS .ERROR message fields ts

/-- Logger.warn delegates to _log at WARN. -/
def Logger.warn (lg : Logger) (M : Level) (defF : Fmtr) (defS : SinkFn)
    (message : String) (fields : List Field) (ts : Timestamp) : LogOutcome :=
  lg.logCore M defF defS .WARN message fields ts

/-- Logger.info delegates to _log at INFO. -/
def Logger.info (lg : Logger) (M : Level) (defF : Fmtr) (defS : SinkFn)
    (message : String) (fields : List Field) (ts : Timestamp) : LogOutcome :=
  lg.logCore M defF defS .INFO message fields ts

/-- Logger.verbose delegates to _log at VERBOSE. -/
def Logger.verbose (lg : Logger) (M : Level) (defF : Fmtr) (defS : SinkFn)
    (message : String) (fields : List Field) (ts : Timestamp) : LogOutcome :=
  lg.logCore M defF defS .VERBOSE message fields ts

/-- Logger.trace delegates to _log at TRACE. -/
def Logger.trace (lg : Logger) (M : Level) (defF : Fmtr) (defS : SinkFn)
    (message : String) (fields : List Field) (ts : Timestamp) : LogOutcome :=
  lg.logCore M defF defS .TRACE message fields ts

/-- Logger.debug delegates to _log at DEBUG. -/
def Logger.debug (lg : Logger) (M : Level) (defF : Fmtr) (defS : SinkFn)
    (message : String) (fields : List Field) (ts : Timestamp) : LogOutcome :=
  lg.logCore M defF defS .DEBUG message fields ts

/-- Logger.pedantic delegates to _log at PEDANTIC. -/
def Logger.pedantic (lg : Logger) (M : Level) (defF : Fmtr) (defS : SinkFn)
    (message : String) (fields : List Field) (ts : Timestamp) : LogOutcome :=
  lg.logCore M defF defS .PEDANTIC message fields ts

/-- Logger.annoying delegates to _log at ANNOYING. -/
def Logger.annoying (lg : Logger) (M : Level) (defF : Fmtr) (defS : SinkFn)
    (message : String) (fields : List Field) (ts : Timestamp) : LogOutcome :=
  lg.logCore M defF defS .ANNOYING message fields ts

/-- Logger.crt, short alias of critical. -/
def Logger.crt (lg : Logger) (M : Level) (defF : Fmtr) (defS : SinkFn)
    (message : String) (fields : List Field) (ts : Timestamp) : LogOutcome :=
  lg.critical M defF defS message fields ts

/-- Logger.err, short alias of error. -/
def Logger.err (lg : Logger) (M : Level) (defF : Fmtr) (defS : SinkFn)
    (message : String) (fields : List Field) (ts : Timestamp) : LogOutcome :=
  lg.error M defF defS message fields ts

/-- Logger.wrn, short alias of warn. -/
def Logger.wrn (lg : Logger) (M : Level) (defF : Fmtr) (defS : SinkFn)
    (message : String) (fields : List Field) (ts : Timestamp) : LogOutcome :=
  lg.warn M defF defS message fields ts

/-- Logger.inf, short alias of info. -/
def Logger.inf (lg : Logger) (M : Level) (defF : Fmtr) (defS : SinkFn)
    (message : String) (fields : List Field) (ts : Timestamp) : LogOutcome :=
  lg.info M defF defS message fields ts

/-- Logger.vrb, short alias of verbose. -/
def Logger.vrb (lg : Logger) (M : Level) (defF : Fmtr) (defS : SinkFn)
    (message : String) (fields : List Field) (ts : Timestamp) : LogOutcome :=
  lg.verbose M defF defS message fields ts

/-- Logger.trc, short alias of trace. -/
def Logger.trc (lg : Logger) (M : Level) (defF : Fmtr) (defS : SinkFn)
    (message : String) (fields : List Field) (ts : Timestamp) : LogOutcome :=
  lg.trace M defF defS message fields ts

/-- Logger.dbg, short alias of debug. -/
def Logger.dbg (lg : Logger) (M : Level) (defF : Fmtr) (defS : SinkFn)
    (message : String) (fields : List Field) (ts : Timestamp) : LogOutcome :=
  lg.debug M defF defS message fields ts

/-- Logger.ped, short alias of pedantic. -/
def Logger.ped (lg : Logger) (M : Level) (defF : Fmtr) (defS : SinkFn)
    (message : String) (fields : List Field) (ts : Timestamp) : LogOutcome :=
  lg.pedantic M defF defS message fields ts

/-- Logger.ayg, short alias of annoying. -/
def Logger.ayg (lg : Logger) (M : Level) (defF : Fmtr) (defS : SinkFn)
    (message : String) (fields : List Field) (ts : Timestamp) : LogOutcome :=
  lg.annoying M defF defS message fields ts

/-- Logger.info_f from core.py: check the level, then evaluate
`format_str % args` with no exception handler, then delegate to info.
The interpolation is passed as its Except outcome; a raised
TypeError/ValueError propagates out of the method unchanged. The eight
other printf-style methods and their short aliases have the identical
shape at their own levels. -/
def Logger.info_f (lg : Logger) (M : Level) (defF : Fmtr) (defS : SinkFn)
    (interp : Except Unit String) (ts : Timestamp) : Except Unit LogOutcome :=
  if ¬ Level.shouldLog .INFO M then .ok .filtered
  else
    match interp with
    | .error e => .error e
    | .ok message => .ok (lg.info M defF defS message [] ts)

namespace DefaultFormatter

/-- DefaultFormatter._level_color. -/
def levelColor (t : Theme) : Level → Nat
  | .CRITICAL => t.critical_color
  | .ERROR => t.error_color
  | .WARN => t.warn_color
  | .INFO => t.info_color
  | .VERBOSE => t.verbose_color
  | .TRACE => t.trace_color
  | .DEBUG => t.debug_color
  | .PEDANTIC => t.pedantic_color
  | .ANNOYING => t.annoying_color

/-- DefaultFormatter._level_bg_color. -/
def levelBgColor (t : Theme) : Level → Nat
  | .CRITICAL => t.critical_bg_color
  | .ERROR => t.error_bg_color
  | .WARN => t.warn_bg_color
  | .INFO => t.info_bg_color
  | .VERBOSE => t.verbose_bg_color
  | .TRACE => t.trace_bg_color
  | .DEBUG => t.debug_bg_color
  | .PEDANTIC => t.pedantic_bg_color
  | .ANNOYING => t.annoying_bg_color

/-- DefaultFormatter._get_max_level_text_width: max over all levels of the
short-name length plus 2 for brackets. -/
def getMaxLevelTextWidth : Nat :=
  Level.all.foldl (fun m l => max m ((level_short_name l).length + 2)) 0

/-- Source column of DefaultFormatter.format: the colorized bracketed tag
followed by padding spaces when padding is positive, else one space; an
empty source gives source_width spaces. -/
def sourcePart (use_color : Bool) (t : Theme) (source : String) : String :=
  if source ≠ "" then
    let source_part := "[" ++ source ++ "]"
    let padding : Int := t.source_width - (source_part.length : Int)
    colorize use_color source_part t.source_color t.source_bg_color
      ++ (if 0 < padding then spaces padding.toNat else " ")
  else spaces t.source_width.toNat

/-- Level column of DefaultFormatter.format: bracketed short name, padded to
the widest bracketed tag when pad_level_text is set, then colorized. -/
def levelPart (use_color : Bool) (t : Theme) (level : Level) : String :=
  let level_part := "[" ++ level_short_name level ++ "]"
  let level_part :=
    if t.pad_level_text then
      let padding : Int := (getMaxLevelTextWidth : Int) - (level_part.length : Int)
      if 0 < padding then level_part ++ spaces padding.toNat else level_part
    else level_part
  colorize use_color level_part (levelColor t level) (levelBgColor t level)

/-- Message column of DefaultFormatter.format: colorized message, and when
message_fixed_width is positive, max(1, width - raw length) padding
spaces; the raw length is used so color escapes do not count. -/
def messagePart (use_color : Bool) (t : Theme) (message : String) : String :=
  let message_colored := colorize use_color message t.message_color
  if 0 < t.message_fixed_width then
    let padding : Int := max 1 (t.message_fixed_width - (message.length : Int))
    message_colored ++ spaces padding.toNat
  else message_colored

/-- Fields column of DefaultFormatter.format: one space then space-joined
key=value pairs, each side colorized; empty when there are no fields. -/
def fieldsPart (use_color : Bool) (t : Theme) (fs : FieldSet) : String :=
  if ¬ fs.empty then
    let field_parts := fs.fields.map fun f =>
      colorize use_color f.key t.field_key_color ++ "=" ++ colorize use_color f.value t.field_value_color
    if field_parts ≠ [] then " " ++ String.intercalate " " field_parts else ""
  else ""

/-- DefaultFormatter.format: the joined parts list, with the single space
the source emits between the level column and the message. -/
def format (use_color : Bool) (t : Theme) (e : LogEntry) : String :=
  sourcePart use_color t e.source
    ++ levelPart use_color t e.level ++ " "
    ++ messagePart use_color t e.message
    ++ fieldsPart use_color t e.fields

end DefaultFormatter

namespace TimestampedFormatter

/-- TimestampedFormatter._level_color (foreground map only). -/
def levelColor (t : Theme) : Level → Nat
  | .CRITICAL => t.critical_color
  | .ERROR => t.error_color
  | .WARN => t.warn_color
  | .INFO => t.info_color
  | .VERBOSE => t.verbose_color
  | .TRACE => t.trace_color
  | .DEBUG => t.debug_color
  | .PEDANTIC => t.pedantic_color
  | .ANNOYING => t.annoying_color

/-- The field_parts list built inside TimestampedFormatter.format: each
field rendered key=value with both sides colorized, in FieldSet order. -/
def fieldParts (use_color : Bool) (t : Theme) (fs : FieldSet) : List String :=
  fs.fields.map fun f =>
    colorize use_color f.key t.field_key_color ++ "=" ++ colorize use_color f.value t.field_value_color

/-- TimestampedFormatter.format: space-joined parts list with the
comma-joined bracketed fields block when fields are present. -/
def format (use_color : Bool) (t : Theme) (e : LogEntry) : String :=
  let parts := ["[" ++ e.timestamp.hms ++ "]"]
  let parts := parts ++
    (if e.source ≠ "" then [colorize use_color e.source t.source_color t.source_bg_color] else [])
  let parts := parts ++ [colorize use_color (level_short_name e.level) (levelColor t e.level) ++ ":"]
  let parts := parts ++ [colorize use_color e.message t.message_color]
  let parts := parts ++
    (if ¬ e.fields.empty then
      let fp := fieldParts use_color t e.fields
      if fp ≠ [] then ["[" ++ String.intercalate ", " fp ++ "]"] else []
    else [])
  String.intercalate " " parts

end TimestampedFormatter

/-- Python dict assignment `d[k] = v` on an association list: replace the
value in place when the key is present, else append the pair. -/
def dictSet (d : List (String × String)) (k v : String) : List (String × String) :=
  match d with
  | [] => [(k, v)]
  | (k0, v0) :: rest => if k0 = k then (k0, v) :: rest else (k0, v0) :: dictSet rest k v

namespace JSONFormatter

/-- The fields_dict built inside JSONFormatter.format: each field assigned
into a Python dict in order, so a repeated key keeps its first position
and its last value. json.dumps then serializes this dict; the claims
concern its contents, not the external JSON escaping. -/
def fieldsDict (fs : FieldSet) : List (String × String) :=
  fs.fields.foldl (fun d f => dictSet d f.key f.value) []

end JSONFormatter

/-- Concrete timestamp used by closed test theorems. -/
def ts0 : Timestamp := ⟨"12:00:00", "2026-01-01T12:00:00"⟩

/-- A formatter object that always succeeds. -/
def okF : Fmtr := fun _ => .ok "ok-line"

/-- A sink object that always succeeds. -/
def okS : SinkFn := fun _ => .ok ()

/-- A formatter object that raises on every entry. -/
def badF : Fmtr := fun _ => .error ()

/-- A logger whose formatter override raises. -/
def lgBadFmtr : Logger := ⟨"app", some badF, Option.none, Option.none⟩

/-- PLAIN theme with a 5-character message column, for padding tests. -/
def tW5 : Theme := { themes.PLAIN with message_fixed_width := 5 }

/- Helper lemmas shared by the claim proofs. -/

theorem colorize_disabled (text : String) (fg bg : Nat) :
    colorize false text fg bg = text := by
  simp [colorize]

theorem colorize_zero (u : Bool) (text : String) :
    colorize u text 0 0 = text := by
  simp [colorize]

theorem spaces_length (n : Nat) : (spaces n).length = n := by
  induction n with
  | zero => rfl
  | succ k ih =>
    have h1 : String.length " " = 1 := rfl
    rw [spaces, String.length_append, ih, h1]
    omega

theorem tag_length (s : String) : ("[" ++ s ++ "]").length = s.length + 2 := by
  have h1 : String.length "[" = 1 := rfl
  have h2 : String.length "]" = 1 := rfl
  rw [String.length_append, String.length_append, h1, h2]
  omega

theorem sourcePart_of_lt (t : Theme) (s : String) (hs : s ≠ "")
    (hlt : (("[" ++ s ++ "]").length : Int) < t.source_width) :
    DefaultFormatter.sourcePart false t s
      = ("[" ++ s ++ "]") ++ spaces (t.source_width - (("[" ++ s ++ "]").length : Int)).toNat := by
  simp only [DefaultFormatter.sourcePart, ne_eq, hs, not_false_eq_true, if_true,
    colorize_disabled]
  rw [if_pos (by omega)]

theorem sourcePart_of_ge (t : Theme) (s : String) (hs : s ≠ "")
    (hge : t.source_width ≤ (("[" ++ s ++ "]").length : Int)) :
    DefaultFormatter.sourcePart false t s = ("[" ++ s ++ "]") ++ " " := by
  simp only [DefaultFormatter.sourcePart, ne_eq, hs, not_false_eq_true, if_true,
    colorize_disabled]
  rw [if_neg (by omega)]

theorem sourcePart_length_of_lt (t : Theme) (s : String) (hs : s ≠ "")
    (hlt : (("[" ++ s ++ "]").length : Int) < t.source_width) :
    (DefaultFormatter.sourcePart false t s).length = t.source_width.toNat := by
  rw [sourcePart_of_lt t s hs hlt, String.length_append, spaces_length]
  omega

theorem sourcePart_empty (u : Bool) (t : Theme) :
    DefaultFormatter.sourcePart u t "" = spaces t.source_width.toNat := by
  simp [DefaultFormatter.sourcePart]

theorem logCore_filtered_of_not (lg : Logger) (M : Level) (defF : Fmtr) (defS : SinkFn)
    (L : Level) (m : String) (fl : List Field) (ts : Timestamp) (h : ¬ L.ord ≤ M.ord) :
    lg.logCore M defF defS L m fl ts = .filtered := by
  simp [Logger.logCore, Level.shouldLog, h]

theorem logCore_ne_filtered_of_le (lg : Logger) (M : Level) (defF : Fmtr) (defS : SinkFn)
    (L : Level) (m : String) (fl : List Field) (ts : Timestamp) (h : L.ord ≤ M.ord) :
    lg.logCore M defF defS L m fl ts ≠ .filtered := by
  unfold Logger.logCore
  rw [if_neg (by simp [Level.shouldLog, h])]
  rcases hF : lg.formatterOpt.getD defF (lg.builtEntry L m fl ts) with e | s
  · simp
  · rcases hS : lg.sinkOpt.getD defS s with e2 | u2 <;> simp [hS]

/-- Claim C1: for every level L and configured global minimum level M, a log
call at level L (any of the 18 level-named Logger methods, all of which
delegate to Logger._log) reaches the formatter/sink pipeline if and only
if L <= M by ordinal comparison; when L > M the call returns filtered,
independent of the formatter and sink (no entry is built, nothing is
formatted or written). -/
theorem c1_level_filtering (lg : Logger) (M : Level) (defF : Fmtr) (defS : SinkFn)
    (L : Level) (m : String) (fl : List Field) (ts : Timestamp) :
    (lg.logCore M defF defS L m fl ts = .filtered ↔ ¬ L.ord ≤ M.ord)
    ∧ (¬ L.ord ≤ M.ord → ∀ defF2 defS2, lg.logCore M defF2 defS2 L m fl ts = .filtered)
    ∧ lg.critical M defF defS m fl ts = lg.logCore M defF defS .CRITICAL m fl ts
    ∧ lg.error M defF defS m fl ts = lg.logCore M defF defS .ERROR m fl ts
    ∧ lg.warn M defF defS m fl ts = lg.logCore M defF defS .WARN m fl ts
    ∧ lg.info M defF defS m fl ts = lg.logCore M defF defS .INFO m fl ts
    ∧ lg.verbose M defF defS m fl ts = lg.logCore M defF defS .VERBOSE m fl ts
    ∧ lg.trace M defF defS m fl ts = lg.logCore M defF defS .TRACE m fl ts
    ∧ lg.debug M defF defS m fl ts = lg.logCore M defF defS .DEBUG m fl ts
    ∧ lg.pedantic M defF defS m fl ts = lg.logCore M defF defS .PEDANTIC m fl ts
    ∧ lg.annoying M defF defS m fl ts = lg.logCore M defF defS .ANNOYING m fl ts
    ∧ lg.crt M defF defS m fl ts = lg.logCore M defF defS .CRITICAL m fl ts
    ∧ lg.err M defF defS m fl ts = lg.logCore M defF defS .ERROR m fl ts
    ∧ lg.wrn M defF defS m fl ts = lg.logCore M defF defS .WARN m fl ts
    ∧ lg.inf M defF defS m fl ts = lg.logCore M defF defS .INFO m fl ts
    ∧ lg.vrb M defF defS m fl ts = lg.logCore M defF defS .VERBOSE m fl ts
    ∧ lg.trc M defF defS m fl ts = lg.logCore M defF defS .TRACE m fl ts
    ∧ lg.dbg M defF defS m fl ts = lg.logCore M defF defS .DEBUG m fl ts
    ∧ lg.ped M defF defS m fl ts = lg.logCore M defF defS .PEDANTIC m fl ts
    ∧ lg.ayg M defF defS m fl ts = lg.logCore M defF defS .ANNOYING m fl ts := by
  refine ⟨?_, ?_, rfl, rfl, rfl, rfl, rfl, rfl, rfl, rfl, rfl, rfl, rfl, rfl, rfl, rfl,
    rfl, rfl, rfl, rfl⟩
  · by_cases h : L.ord ≤ M.ord
    · exact iff_of_false (logCore_ne_filtered_of_le lg M defF defS L m fl ts h)
        (not_not_intro h)
    · exact iff_of_true (logCore_filtered_of_not lg M defF defS L m fl ts h) h
  · intro h defF2 defS2
    exact logCore_filtered_of_not lg M defF2 defS2 L m fl ts h

/-- Closed instance of c1_level_filtering: with min_level INFO, a DEBUG call
is filtered. -/
theorem c1_level_filtering_witness :
    (get_logger "app").logCore .INFO okF okS .DEBUG "m" [] ts0 = .filtered :=
  (c1_level_filtering (get_logger "app") .INFO okF okS .DEBUG "m" [] ts0).1.mpr (by decide)

/-- Claim C2: for every log call that passes the level filter, if the
formatter raises on the built entry or the sink raises on the formatted
string, the call still returns normally with exactly one fallback
diagnostic line to stderr, and that line contains the original message
text (it is the fixed marker followed by the message). -/
theorem c2_failure_fallback (lg : Logger) (M : Level) (defF : Fmtr) (defS : SinkFn)
    (L : Level) (m : String) (fl : List Field) (ts : Timestamp)
    (hEnabled : L.ord ≤ M.ord)
    (hFail : lg.formatterOpt.getD defF (lg.builtEntry L m fl ts) = Except.error ()
      ∨ ∃ out, lg.formatterOpt.getD defF (lg.builtEntry L m fl ts) = Except.ok out
          ∧ lg.sinkOpt.getD defS out = Except.error ()) :
    lg.logCore M defF defS L m fl ts = .fallback (fallbackLine m)
    ∧ fallbackLine m = "[redlog-error] Failed to log: " ++ m := by
  refine ⟨?_, rfl⟩
  unfold Logger.logCore
  rw [if_neg (by simp [Level.shouldLog, hEnabled])]
  rcases hFail with hF | ⟨out, hF, hS⟩
  · rw [hF]
  · rw [hF]
    simp only []
    rw [hS]

/-- Closed instance of c2_failure_fallback: a logger whose formatter
override raises degrades to the stderr fallback line. -/
theorem c2_failure_fallback_witness :
    Level.ord .INFO ≤ Level.ord .INFO
    ∧ lgBadFmtr.logCore .INFO okF okS .INFO "hello" [] ts0 = .fallback (fallbackLine "hello") :=
  ⟨by decide,
    (c2_failure_fallback lgBadFmtr .INFO okF okS .INFO "hello" [] ts0 (by decide)
      (Or.inl rfl)).1⟩

/-- Claim C3 names behavior the code does not have: Logger.info_f evaluates
`format_str % args` with no exception handler, so a failed interpolation
propagates a TypeError/ValueError out of the enabled-level call instead
of logging the in-band marker; the "[format_error]" marker exists only in
the standalone fmt utility of utils.py, which the printf-style Logger
methods never call. This theorem evaluates the embedded code at the
failing input (min_level INFO, interpolation raising). -/
theorem c3_infof_interpolation_error_propagates :
    (get_logger "app").info_f .INFO okF okS (Except.error ()) ts0 = Except.error ()
    ∧ fmt (Except.error ()) = "[format_error]" := by
  constructor
  · simp [Logger.info_f, Level.shouldLog]
  · rfl

/-- Counterexample to claim C4: with the PLAIN theme (source_width 12), the
source "abcdefghijklmn" has a 16-character bracketed tag; the Default
formatter renders it in full followed by one space, occupying 17
characters, not exactly source_width, and without any truncation. -/
theorem c4_source_truncation_counterexample :
    DefaultFormatter.sourcePart false themes.PLAIN "abcdefghijklmn" = "[abcdefghijklmn] "
    ∧ themes.PLAIN.source_width = 12
    ∧ ¬ (DefaultFormatter.sourcePart false themes.PLAIN "abcdefghijklmn").length = 12 := by
  refine ⟨by decide, by decide, by decide⟩

/-- Claim C4 as amended: with color off, when the bracketed tag is strictly
shorter than source_width the Default formatter emits the tag first and
pads with spaces on the right to exactly source_width characters; when
the tag length reaches or exceeds source_width the tag is never
truncated: it is emitted in full followed by exactly one space. -/
theorem c4_source_column_amended (t : Theme) (s : String) (hs : s ≠ "") :
    ((("[" ++ s ++ "]").length : Int) < t.source_width →
      DefaultFormatter.sourcePart false t s
        = ("[" ++ s ++ "]") ++ spaces (t.source_width - (("[" ++ s ++ "]").length : Int)).toNat
      ∧ (DefaultFormatter.sourcePart false t s).length = t.source_width.toNat)
    ∧ (t.source_width ≤ (("[" ++ s ++ "]").length : Int) →
      DefaultFormatter.sourcePart false t s = ("[" ++ s ++ "]") ++ " ") := by
  constructor
  · intro h
    exact ⟨sourcePart_of_lt t s hs h, sourcePart_length_of_lt t s hs h⟩
  · intro h
    exact sourcePart_of_ge t s hs h

/-- Closed instance of c4_source_column_amended: "[db]" padded to the PLAIN
theme's source_width of 12. -/
theorem c4_source_column_amended_witness :
    (DefaultFormatter.sourcePart false themes.PLAIN "db").length
      = themes.PLAIN.source_width.toNat :=
  ((c4_source_column_amended themes.PLAIN "db" (by decide)).1 (by decide)).2

/-- Claim C5: with_field leaves the receiver's name in place on the derived
logger, and the derived logger has exactly one more field, the existing
fields preserved in order with Field(key, value) appended. The receiver
itself is untouched by construction: FieldSet.with_field builds a new
list with +, mutating nothing. -/
theorem c5_with_field_immutability (lg : Logger) (k : String) (v : PyValue) :
    (lg.with_field k v).name = lg.name
    ∧ (lg.with_field k v).fields.len = lg.fields.len + 1
    ∧ (lg.with_field k v).fields.fields = lg.fields.fields ++ [Field.make k v] := by
  refine ⟨rfl, ?_, rfl⟩
  simp [Logger.with_field, Logger.fields, FieldSet.with_field, FieldSet.len]

/-- Claim C6: with_name on an empty-named logger yields the bare segment; on
a non-empty name it dot-joins; hence both ways of reaching "a.b" agree. -/
theorem c6_with_name_composition (lg : Logger) (s : String) :
    (lg.name = "" → (lg.with_name s).name = s)
    ∧ (lg.name ≠ "" → (lg.with_name s).name = lg.name ++ "." ++ s)
    ∧ (((get_logger "").with_name "a").with_name "b").name = "a.b"
    ∧ ((get_logger "a").with_name "b").name = "a.b" := by
  refine ⟨?_, ?_, by decide, by decide⟩
  · intro h
    simp [Logger.with_name, h]
  · intro h
    simp [Logger.with_name, h]

/-- Closed instance of c6_with_name_composition: dot-joining onto "x". -/
theorem c6_with_name_composition_witness :
    ((get_logger "x").with_name "y").name = (get_logger "x").name ++ "." ++ "y" :=
  (c6_with_name_composition (get_logger "x") "y").2.1 (by decide)

/-- Claim C7: a FieldSet holding two fields with the same key renders both
occurrences in insertion order in the Default formatter (space-joined)
and in the Timestamped formatter's field_parts (comma-joined by its
format), while the JSON formatter's fields dict keeps only the last
value of the key. Stated with color off so the rendered text is bare. -/
theorem c7_duplicate_fields (t : Theme) (k v1 v2 : String) :
    DefaultFormatter.fieldsPart false t ⟨[⟨k, v1⟩, ⟨k, v2⟩]⟩
      = " " ++ (k ++ "=" ++ v1) ++ " " ++ (k ++ "=" ++ v2)
    ∧ TimestampedFormatter.fieldParts false t ⟨[⟨k, v1⟩, ⟨k, v2⟩]⟩
      = [k ++ "=" ++ v1, k ++ "=" ++ v2]
    ∧ JSONFormatter.fieldsDict ⟨[⟨k, v1⟩, ⟨k, v2⟩]⟩ = [(k, v2)] := by
  refine ⟨?_, ?_, ?_⟩
  · simp [DefaultFormatter.fieldsPart, FieldSet.empty, colorize_disabled,
      String.append_assoc, String.intercalate, String.intercalate.go]
  · simp [TimestampedFormatter.fieldParts, colorize_disabled]
  · simp [JSONFormatter.fieldsDict, dictSet]

/-- Claim C8: whenever message_fixed_width is positive, the Default
formatter appends exactly max(1, message_fixed_width - message length)
trailing spaces after the (possibly colorized) message; the padding count
is at least 1, and equals exactly 1 once the message reaches or exceeds
the width. -/
theorem c8_message_padding (u : Bool) (t : Theme) (m : String)
    (h : 0 < t.message_fixed_width) :
    DefaultFormatter.messagePart u t m
      = colorize u m t.message_color
        ++ spaces (max 1 (t.message_fixed_width - (m.length : Int))).toNat
    ∧ 1 ≤ (max 1 (t.message_fixed_width - (m.length : Int))).toNat
    ∧ (t.message_fixed_width ≤ (m.length : Int) →
        (max 1 (t.message_fixed_width - (m.length : Int))).toNat = 1) := by
  refine ⟨?_, by omega, fun hle => by omega⟩
  simp only [DefaultFormatter.messagePart]
  rw [if_pos h]

/-- Closed instance of c8_message_padding: an 11-character message in a
5-character column still gets exactly one trailing space. -/
theorem c8_message_padding_witness :
    (max 1 (tW5.message_fixed_width - (("hello world".length : Nat) : Int))).toNat = 1 :=
  (c8_message_padding false tW5 "hello world" (by decide)).2.2 (by decide)

/-- Claim C9: colorize returns the text unchanged when color is disabled by
the environment/TTY query or when both codes are none (0); otherwise it
wraps the text in an ANSI escape whose non-none codes are joined by ";"
followed by the reset sequence. -/
theorem c9_colorize (u : Bool) (text : String) (fg bg : Nat) :
    (u = false → colorize u text fg bg = text)
    ∧ (fg = 0 → bg = 0 → colorize u text fg bg = text)
    ∧ (u = true → (fg ≠ 0 ∨ bg ≠ 0) →
        colorize u text fg bg
          = "\x1b[" ++ String.intercalate ";"
              ((if fg = 0 then [] else [toString fg])
                ++ (if bg = 0 then [] else [toString bg]))
            ++ "m" ++ text ++ "\x1b[0m") := by
  refine ⟨?_, ?_, ?_⟩
  · rintro rfl
    exact colorize_disabled text fg bg
  · rintro rfl rfl
    exact colorize_zero u text
  · rintro rfl h
    by_cases hf : fg = 0 <;> by_cases hb : bg = 0
    · simp [hf, hb] at h
    · simp [colorize, hf, hb, String.intercalate]
    · simp [colorize, hf, hb, String.intercalate]
    · simp [colorize, hf, hb, String.intercalate]

/-- Closed instance of c9_colorize: with color disabled the text comes back
unchanged, byte for byte. -/
theorem c9_colorize_witness : colorize false "abc" 31 41 = "abc" :=
  (c9_colorize false "abc" 31 41).1 rfl

/-- Counterexample to claim C10's alignment clause at the boundary: with the
PLAIN theme (source_width 12), the source "0123456789" has a bracketed
tag of exactly 12 characters, which fits in source_width, yet its source
column occupies 13 characters (full tag plus one space) while the empty
source column occupies 12, so the level tag does not start at the same
column. -/
theorem c10_boundary_counterexample :
    ("[" ++ "0123456789" ++ "]").length = 12
    ∧ themes.PLAIN.source_width = 12
    ∧ (DefaultFormatter.sourcePart false themes.PLAIN "0123456789").length = 13
    ∧ (DefaultFormatter.sourcePart false themes.PLAIN "").length = 12
    ∧ ¬ (DefaultFormatter.sourcePart false themes.PLAIN "0123456789").length
        = (DefaultFormatter.sourcePart false themes.PLAIN "").length := by
  refine ⟨by decide, by decide, by decide, by decide, by decide⟩

/-- Claim C10 as amended: an empty source renders as exactly source_width
space characters, with no brackets and no colorize call on any theme or
color setting; and the level tag starts at the same column as for named
loggers whose bracketed tag is strictly shorter than source_width (a tag
of exactly source_width characters gains one extra space instead). -/
theorem c10_empty_source_amended (u : Bool) (t : Theme) (s : String) :
    DefaultFormatter.sourcePart u t "" = spaces t.source_width.toNat
    ∧ (DefaultFormatter.sourcePart u t "").length = t.source_width.toNat
    ∧ (s ≠ "" → (("[" ++ s ++ "]").length : Int) < t.source_width →
        (DefaultFormatter.sourcePart false t s).length
          = (DefaultFormatter.sourcePart u t "").length) := by
  refine ⟨sourcePart_empty u t, ?_, fun hs hlt => ?_⟩
  · rw [sourcePart_empty u t, spaces_length]
  · rw [sourcePart_length_of_lt t s hs hlt, sourcePart_empty u t, spaces_length]

/-- Closed instance of c10_empty_source_amended: "[db]" is strictly shorter
than the PLAIN theme's source_width, so its line's level tag starts at
the same column as an unnamed logger's. -/
theorem c10_empty_source_amended_witness :
    (DefaultFormatter.sourcePart false themes.PLAIN "db").length
      = (DefaultFormatter.sourcePart false themes.PLAIN "").length :=
  (c10_empty_source_amended false themes.PLAIN "db").2.2 (by decide) (by decide)

end Redlog
